import Mathlib

/-!
Verification of the `synom` parsing interface of the syn library
(src/synom.rs): the `Synom` blanket rule, the `Parser` entry points
(`parse2`, `parse`, `parse_str`), the atomic `Parse` implementations for
`TokenStream`, `TokenTree`, `Group`, `Punct` and `Literal`, and the
`IdentExt` identifier extension (`parse_any`, `parse_any2`).

The supporting modules (`buffer`, `parse`, `error`) are not part of the
given source; their operations are modelled from the specification, each
marked `Modelled from the spec:` in its doc comment.  Machine state
(the interior-mutable cursor cell and the shared unexpected-token cell of
a `ParseBuffer`) is made explicit: a parser function is a function from a
`ParseBuffer` to a result paired with the post-call `ParseBuffer`.
-/

namespace Syn

/-- Modelled from the spec: a source-position anchor.  `callSite` is the
default call-site position; `pos n` is a position inside the input. -/
inductive Span where
  | callSite : Span
  | pos : Nat → Span
deriving DecidableEq, Repr

/-- Modelled from the spec: one of the three delimiter kinds of a
delimited group. -/
inductive Delimiter where
  | parenthesis : Delimiter
  | brace : Delimiter
  | bracket : Delimiter
deriving DecidableEq, Repr

/-- Modelled from the spec: a token tree — an identifier, a punctuation
mark, a literal, or a delimited group whose contents are themselves a
nested token sequence with its own span. -/
inductive TokenTree where
  | ident : String → Span → TokenTree
  | punct : Char → Span → TokenTree
  | literal : String → Span → TokenTree
  | group : Delimiter → List TokenTree → Span → TokenTree

/-- The span carried by a token. -/
def TokenTree.span : TokenTree → Span
  | .ident _ sp => sp
  | .punct _ sp => sp
  | .literal _ sp => sp
  | .group _ _ sp => sp

/-- Modelled from the spec: an in-memory token stream is an ordered
sequence of token trees. -/
abbrev TokenStream := List TokenTree

/-- Modelled from the spec: a `Cursor` is an immutable, copyable position
in a token tree; here, the sequence of tokens remaining at the current
nesting level. -/
abbrev Cursor := List TokenTree

/-- Modelled from the spec (`buffer` module, not under src/): the empty
cursor, with no tokens remaining. -/
def Cursor.empty : Cursor := []

/-- Modelled from the spec (`error` module, not under src/): a parse
failure value carrying a position anchor and, when one was supplied, a
human-readable message.  The generic `parse_error` failure carries no
descriptive message. -/
structure Error where
  span : Span
  message : Option String
deriving DecidableEq, Repr

/-- `Error::new(span, message)`: an error with the given anchor and
message (source lines 306-309 construct the lexing-failure error this
way). -/
def Error.new (span : Span) (message : String) : Error :=
  ⟨span, some message⟩

/-- `PResult<T>`: either a parsed value paired with the cursor past the
consumed tokens, or an `Error`. -/
abbrev PResult (α : Type) := Except Error (α × Cursor)

/-- `Result<T>` of the `parse` module: a value or an `Error`. -/
abbrev Result (α : Type) := Except Error α

/-- Modelled from the spec (`error` module, not under src/): the generic
parse-error constructor used by low-level rules; it produces a failure
anchored at the default call-site position with no descriptive
message. -/
def parse_error {α : Type} : PResult α :=
  Except.error ⟨Span.callSite, none⟩

/-- Modelled from the spec (`buffer` module, not under src/): the
position a cursor's diagnostics are anchored at — the span of the next
token, or the default call-site position when no tokens remain. -/
def Cursor.spanOf : Cursor → Span
  | [] => Span.callSite
  | t :: _ => t.span

/-- Modelled from the spec (`buffer` module, not under src/):
`cursor.error(message)` builds an error with the given message anchored
at the cursor's position. -/
def Cursor.error (c : Cursor) (message : String) : Error :=
  ⟨c.spanOf, some message⟩

/-- Modelled from the spec (`buffer` module, not under src/):
`cursor.token_tree()` — interpret the next token as a token tree of any
kind, returning it with the cursor past it, or `none` when no tokens
remain. -/
def Cursor.token_tree : Cursor → Option (TokenTree × Cursor)
  | [] => none
  | t :: rest => some (t, rest)

/-- Modelled from the spec (`buffer` module, not under src/):
`cursor.ident()` — interpret the next token as an identifier-shaped
token (any identifier, keywords included). -/
def Cursor.ident : Cursor → Option ((String × Span) × Cursor)
  | .ident name sp :: rest => some ((name, sp), rest)
  | _ => none

/-- Modelled from the spec (`buffer` module, not under src/):
`cursor.punct()` — interpret the next token as a punctuation mark. -/
def Cursor.punct : Cursor → Option ((Char × Span) × Cursor)
  | .punct ch sp :: rest => some ((ch, sp), rest)
  | _ => none

/-- Modelled from the spec (`buffer` module, not under src/):
`cursor.literal()` — interpret the next token as a literal. -/
def Cursor.literal : Cursor → Option ((String × Span) × Cursor)
  | .literal text sp :: rest => some ((text, sp), rest)
  | _ => none

/-- Modelled from the spec (`buffer` module, not under src/):
`cursor.group(delim)` — interpret the next token as a delimited group of
the requested delimiter kind, returning the cursor into its contents,
the group's span, and the cursor past the group. -/
def Cursor.group (c : Cursor) (delim : Delimiter) : Option (Cursor × Span × Cursor) :=
  match c with
  | .group d inside sp :: rest => if d = delim then some (inside, sp, rest) else none
  | _ => none

/-- Modelled from the spec (`buffer` module, not under src/):
`cursor.token_stream()` — all tokens remaining at the current nesting
level, as an opaque token stream. -/
def Cursor.token_stream (c : Cursor) : TokenStream := c

/-- Modelled from the spec (`parse` module, not under src/): the Buffered
Parse State — a call-site anchor, the current cursor (an interior-mutable
cell in the source, explicit state here), and the shared diagnostic cell
holding the recorded unexpected-token error, if any. -/
structure ParseBuffer where
  scope : Span
  cursor : Cursor
  unexpected : Option Error

/-- `ParseBuffer::new(scope, cursor, unexpected)`. -/
def ParseBuffer.new (scope : Span) (cursor : Cursor) (unexpected : Option Error) :
    ParseBuffer :=
  ⟨scope, cursor, unexpected⟩

/-- A parser function over the Buffered Parse State (`FnOnce(ParseStream)
-> Result<T>` in the source): it returns a result together with the
post-call state, since the state's cells are mutable in the source. -/
abbrev ParserFn (α : Type) := ParseBuffer → Result α × ParseBuffer

/-- Modelled from the spec (`parse` module, not under src/):
`input.step_cursor(f)` — apply `f` to the current raw cursor; on success
replace the internal cursor with the returned one and yield the value; on
failure propagate the error without mutating internal state. -/
def ParseBuffer.step_cursor (input : ParseBuffer)
    (f : Cursor → Except Error (α × Cursor)) : Result α × ParseBuffer :=
  match f input.cursor with
  | .ok (value, rest) => (.ok value, { input with cursor := rest })
  | .error e => (.error e, input)

/-- Modelled from the spec (`parse` module, not under src/):
`state.check_unexpected()` — fail with the recorded unexpected-token
diagnostic when the shared cell holds one, succeed otherwise. -/
def ParseBuffer.check_unexpected (state : ParseBuffer) : Result Unit :=
  match state.unexpected with
  | some e => .error e
  | none => .ok ()

/-- The blanket `impl<T: Parse> Synom for T` (source lines 214-222),
with the lower-level `Parse` rule of `T` passed explicitly as `p`:
construct a fresh `ParseBuffer` over the given cursor with a fresh empty
shared diagnostic cell, invoke `p`, check the shared cell, and return
the node paired with the state's remaining cursor. -/
def Synom.parse (p : ParserFn α) (input : Cursor) : PResult α :=
  let state := ParseBuffer.new Span.callSite input none
  match p state with
  | (.error e, _) => .error e
  | (.ok node, state') =>
    match state'.check_unexpected with
    | .error e => .error e
    | .ok _ => .ok (node, state'.cursor)

/-- `impl Parse for TokenStream` (source lines 224-228): consume
everything remaining, leaving the empty cursor. -/
def TokenStream.parse : ParserFn TokenStream := fun input =>
  input.step_cursor (fun cursor => .ok (cursor.token_stream, Cursor.empty))

/-- `impl Parse for TokenTree` (source lines 230-237): consume exactly
one token of any kind, failing with "expected token tree" when none
remain. -/
def TokenTree.parse : ParserFn TokenTree := fun input =>
  input.step_cursor (fun cursor =>
    match cursor.token_tree with
    | some (tt, rest) => .ok (tt, rest)
    | none => .error (cursor.error "expected token tree"))

/-- The parsed group node (`proc_macro2::Group`): a delimiter, the
delimited token stream, and a span. -/
structure Group where
  delimiter : Delimiter
  stream : TokenStream
  span : Span

/-- `Group::new(delimiter, stream)`: a fresh group with the default
call-site span. -/
def Group.new (delimiter : Delimiter) (stream : TokenStream) : Group :=
  ⟨delimiter, stream, Span.callSite⟩

/-- `group.set_span(span)`. -/
def Group.set_span (g : Group) (span : Span) : Group :=
  { g with span := span }

/-- The `for delim in &[Parenthesis, Brace, Bracket]` loop of
`impl Parse for Group` (source lines 242-248): try each delimiter kind in
order, returning the first structural match as a group carrying the
original group's reconstructed span. -/
def Group.tryDelims : List Delimiter → Cursor → Option (Group × Cursor)
  | [], _ => none
  | delim :: delims, cursor =>
    match cursor.group delim with
    | some (inside, sp, rest) =>
      some ((Group.new delim inside.token_stream).set_span sp, rest)
    | none => Group.tryDelims delims cursor

/-- `impl Parse for Group` (source lines 239-252): try parenthesis, then
brace, then bracket; fail with "expected group token" when none match. -/
def Group.parse : ParserFn Group := fun input =>
  input.step_cursor (fun cursor =>
    match Group.tryDelims
        [Delimiter.parenthesis, Delimiter.brace, Delimiter.bracket] cursor with
    | some (group, rest) => .ok (group, rest)
    | none => .error (cursor.error "expected group token"))

/-- `impl Parse for Punct` (source lines 254-261): consume one
punctuation token, failing with "expected punctuation token"
otherwise. -/
def Punct.parse : ParserFn (Char × Span) := fun input =>
  input.step_cursor (fun cursor =>
    match cursor.punct with
    | some (p, rest) => .ok (p, rest)
    | none => .error (cursor.error "expected punctuation token"))

/-- `impl Parse for Literal` (source lines 263-270): consume one literal
token, failing with "expected literal token" otherwise. -/
def Literal.parse : ParserFn (String × Span) := fun input =>
  input.step_cursor (fun cursor =>
    match cursor.literal with
    | some (lit, rest) => .ok (lit, rest)
    | none => .error (cursor.error "expected literal token"))

/-- Modelled from the spec (`buffer`/`TokenBuffer`, not under src/):
`TokenBuffer::new2(tokens)` buffers an in-memory token stream. -/
def TokenBuffer.new2 (tokens : TokenStream) : TokenStream := tokens

/-- Modelled from the spec (`buffer`/`TokenBuffer`, not under src/):
`buf.begin()` — a cursor at the start of the buffered stream. -/
def TokenBuffer.begin (buf : TokenStream) : Cursor := buf

/-- `Parser::parse2` for `F: FnOnce(ParseStream) -> Result<T>` (source
lines 314-328): buffer the tokens, build a fresh `ParseBuffer` with a
fresh empty shared diagnostic cell, run the wrapped function, check the
shared cell, and return the node. -/
def Parser.parse2 (f : ParserFn α) (tokens : TokenStream) : Result α :=
  let buf := TokenBuffer.new2 tokens
  let state := ParseBuffer.new Span.callSite (TokenBuffer.begin buf) none
  match f state with
  | (.error e, _) => .error e
  | (.ok node, state') =>
    match state'.check_unexpected with
    | .error e => .error e
    | .ok _ => .ok node

/-- A compiler-provided (`proc_macro`) token stream; `into` is its
conversion to the in-memory form. -/
structure PmTokenStream where
  into : TokenStream

/-- `Parser::parse` (source lines 293-295): convert the compiler-provided
stream to the in-memory form and delegate to `parse2`. -/
def Parser.parse (f : ParserFn α) (tokens : PmTokenStream) : Result α :=
  Parser.parse2 f tokens.into

/-- `Parser::parse_str` (source lines 303-311), with the external lexer
`s.parse()` passed explicitly as `lex`: lex the source text and delegate
to `parse2`, or fail with the fixed lexing-failure diagnostic at the
default call-site position. -/
def Parser.parse_str (lex : String → Option TokenStream) (f : ParserFn α)
    (s : String) : Result α :=
  match lex s with
  | some tts => Parser.parse2 f tts
  | none => .error (Error.new Span.callSite "error while lexing input string")

/-- Modelled from the spec: the language's reserved-word table that the
ordinary identifier rule (elsewhere in the library, not under src/) uses
to exclude keywords from plain identifier parsing. -/
def rustKeywords : List String :=
  ["as", "break", "const", "continue", "crate", "else", "enum", "fn", "for",
   "if", "impl", "in", "let", "loop", "match", "mod", "move", "mut", "pub",
   "ref", "return", "static", "struct", "super", "trait", "true", "type",
   "use", "where", "while"]

/-- Modelled from the spec: the ordinary identifier rule elsewhere in the
library, which rejects tokens in the reserved-word table. -/
def Ident.parse_plain (input : Cursor) : PResult (String × Span) :=
  match input.ident with
  | some (i, rest) =>
    if i.1 ∈ rustKeywords then parse_error else .ok (i, rest)
  | none => parse_error

/-- `IdentExt::parse_any` for `Ident` (source lines 378-380):
`input.ident().map_or_else(parse_error, Ok)` — accept any
identifier-shaped token, keywords included. -/
def Ident.parse_any (input : Cursor) : PResult (String × Span) :=
  match input.ident with
  | some r => .ok r
  | none => parse_error

/-- `IdentExt::parse_any2` for `Ident` (source lines 382-387): the
`ParseStream` form, failing with "expected ident" at the cursor's
position. -/
def Ident.parse_any2 : ParserFn (String × Span) := fun input =>
  input.step_cursor (fun cursor =>
    match cursor.ident with
    | some (i, rest) => .ok (i, rest)
    | none => .error (cursor.error "expected ident"))

/-- Sample error used by witnesses: a recorded unexpected-token
diagnostic. -/
def errX : Error := ⟨Span.pos 7, some "unexpected token"⟩

/-- Sample parser function used by witnesses: succeeds but records an
unexpected-token diagnostic in the shared cell. -/
def pOkUnexpected : ParserFn Nat := fun st =>
  (.ok 42, { st with unexpected := some errX })

/-- Sample parser function used by witnesses: succeeds and records
nothing. -/
def pOkClean : ParserFn Nat := fun st => (.ok 42, st)

/-- Sample parser function used by witnesses: fails with `errX`. -/
def pFail : ParserFn Nat := fun st => (.error errX, st)

/-- On failure, `step_cursor` returns the state unchanged. -/
theorem step_cursor_err_state (α : Type) (st : ParseBuffer)
    (f : Cursor → Except Error (α × Cursor)) (e : Error) (st' : ParseBuffer)
    (h : ParseBuffer.step_cursor st f = (.error e, st')) : st' = st := by
  unfold ParseBuffer.step_cursor at h
  cases hf : f st.cursor with
  | ok v =>
    rw [hf] at h
    obtain ⟨value, rest⟩ := v
    simp at h
  | error e2 =>
    rw [hf] at h
    simp at h
    exact h.2.symm

end Syn

namespace Syn

/-- C1: for every type `T` implementing the lower-level `Parse`
capability (its rule `p`), the lifted `Synom::parse(input)` runs `p` on a
fresh `ParseBuffer` over `input` with an empty shared diagnostic cell; if
`p` fails, that failure is returned; if `p` succeeds, the call fails with
the recorded unexpected-token diagnostic when the shared cell holds one,
and otherwise returns the parsed value paired with the state's remaining
cursor. -/
theorem synom_blanket_spec (α : Type) (p : ParserFn α) (input : Cursor) :
    (∀ e st, p (ParseBuffer.new Span.callSite input none) = (.error e, st) →
      Synom.parse p input = .error e) ∧
    (∀ v st, p (ParseBuffer.new Span.callSite input none) = (.ok v, st) →
      (∀ err, st.unexpected = some err → Synom.parse p input = .error err) ∧
      (st.unexpected = none → Synom.parse p input = .ok (v, st.cursor))) := by
  constructor
  · intro e st h
    simp only [Synom.parse, h]
  · intro v st h
    constructor
    · intro err hu
      simp only [Synom.parse, h, ParseBuffer.check_unexpected, hu]
    · intro hu
      simp only [Synom.parse, h, ParseBuffer.check_unexpected, hu]

/-- Witness for C1: a lower-level rule that succeeds but leaves an
unexpected-token diagnostic makes the lifted `Synom::parse` fail with
that diagnostic. -/
theorem synom_blanket_spec_witness :
    Synom.parse pOkUnexpected [] = .error errX :=
  ((synom_blanket_spec Nat pOkUnexpected []).2 42
    (ParseBuffer.new Span.callSite [] (some errX)) rfl).1 errX rfl

end Syn

namespace Syn

/-- C2: each `Parser` entry point — `parse2` on an in-memory token
stream, `parse` on a compiler-provided token stream, and `parse_str` on
source text that lexes — checks, after the wrapped function `f` returns
successfully, whether an unexpected-token diagnostic was left in the
shared cell, and returns that diagnostic as an error if so. -/
theorem parser_entry_points_check_unexpected (α : Type) (f : ParserFn α) :
    (∀ tokens v st err,
      f (ParseBuffer.new Span.callSite (TokenBuffer.begin (TokenBuffer.new2 tokens))
          none) = (.ok v, st) →
      st.unexpected = some err → Parser.parse2 f tokens = .error err) ∧
    (∀ t v st err,
      f (ParseBuffer.new Span.callSite (TokenBuffer.begin (TokenBuffer.new2 t.into))
          none) = (.ok v, st) →
      st.unexpected = some err → Parser.parse f t = .error err) ∧
    (∀ lex s tokens v st err, lex s = some tokens →
      f (ParseBuffer.new Span.callSite (TokenBuffer.begin (TokenBuffer.new2 tokens))
          none) = (.ok v, st) →
      st.unexpected = some err → Parser.parse_str lex f s = .error err) := by
  refine ⟨?_, ?_, ?_⟩
  · intro tokens v st err h hu
    simp only [Parser.parse2, h, ParseBuffer.check_unexpected, hu]
  · intro t v st err h hu
    simp only [Parser.parse, Parser.parse2, h, ParseBuffer.check_unexpected, hu]
  · intro lex s tokens v st err hlex h hu
    simp only [Parser.parse_str, hlex, Parser.parse2, h,
      ParseBuffer.check_unexpected, hu]

/-- Witness for C2: a wrapped function that succeeds but records an
unexpected-token diagnostic makes all three entry points fail with that
diagnostic. -/
theorem parser_entry_points_check_unexpected_witness :
    Parser.parse2 pOkUnexpected [] = .error errX ∧
    Parser.parse pOkUnexpected ⟨[]⟩ = .error errX ∧
    Parser.parse_str (fun _ => some []) pOkUnexpected "x" = .error errX := by
  refine ⟨?_, ?_, ?_⟩
  · exact (parser_entry_points_check_unexpected Nat pOkUnexpected).1 [] 42
      (ParseBuffer.new Span.callSite [] (some errX)) errX rfl rfl
  · exact (parser_entry_points_check_unexpected Nat pOkUnexpected).2.1 ⟨[]⟩ 42
      (ParseBuffer.new Span.callSite [] (some errX)) errX rfl rfl
  · exact (parser_entry_points_check_unexpected Nat pOkUnexpected).2.2
      (fun _ => some []) "x" [] 42
      (ParseBuffer.new Span.callSite [] (some errX)) errX rfl rfl rfl

/-- C3: when the input string fails to lex, `Parser::parse_str` fails
with exactly the fixed diagnostic "error while lexing input string"
anchored at the default call-site position, and the wrapped parser
function is never consulted: the result is the same for every wrapped
function. -/
theorem parse_str_lex_failure (α : Type) (lex : String → Option TokenStream)
    (f g : ParserFn α) (s : String) (h : lex s = none) :
    Parser.parse_str lex f s =
      .error ⟨Span.callSite, some "error while lexing input string"⟩ ∧
    Parser.parse_str lex f s = Parser.parse_str lex g s := by
  unfold Parser.parse_str
  rw [h]
  exact ⟨rfl, rfl⟩

/-- Witness for C3: on a lexer that rejects the input, `parse_str`
returns the fixed lexing-failure diagnostic, for a succeeding and a
failing wrapped function alike. -/
theorem parse_str_lex_failure_witness :
    Parser.parse_str (fun _ => none) pOkClean "\"unterminated" =
      .error ⟨Span.callSite, some "error while lexing input string"⟩ ∧
    Parser.parse_str (fun _ => none) pOkClean "\"unterminated" =
      Parser.parse_str (fun _ => none) pFail "\"unterminated" :=
  parse_str_lex_failure Nat (fun _ => none) pOkClean pFail "\"unterminated" rfl

/-- C4: the `Parse` implementation for `TokenStream` never fails: at any
state it returns all tokens remaining at the current nesting level as an
opaque stream and leaves the empty cursor as the remainder. -/
theorem tokenstream_parse_total (st : ParseBuffer) :
    TokenStream.parse st =
      (.ok st.cursor.token_stream, { st with cursor := Cursor.empty }) := rfl

/-- C9: the compiler-tooling entry point `Parser::parse` returns exactly
the result of `Parser::parse2` on the in-memory conversion of its token
stream: it is a pure representation conversion. -/
theorem parse_is_parse2_of_into (α : Type) (f : ParserFn α) (t : PmTokenStream) :
    Parser.parse f t = Parser.parse2 f t.into := rfl

end Syn

namespace Syn

/-- C5: the `Parse` implementation for `Group` tries parenthesis, then
brace, then bracket, returning the first structural match as a group
carrying the original group's reconstructed span — in particular a
brace-delimited first token yields the brace interpretation — and when
the next token is no delimited group of any kind it fails with
"expected group token". -/
theorem group_parse_spec (st : ParseBuffer) :
    (∀ d inside sp rest, st.cursor = TokenTree.group d inside sp :: rest →
      Group.parse st =
        (.ok ⟨d, Cursor.token_stream inside, sp⟩, { st with cursor := rest })) ∧
    (st.cursor.group Delimiter.parenthesis = none →
     st.cursor.group Delimiter.brace = none →
     st.cursor.group Delimiter.bracket = none →
      Group.parse st =
        (.error ⟨st.cursor.spanOf, some "expected group token"⟩, st)) := by
  constructor
  · intro d inside sp rest h
    cases d <;>
      simp [Group.parse, ParseBuffer.step_cursor, h, Group.tryDelims, Cursor.group,
        Group.new, Group.set_span, Cursor.token_stream]
  · intro h1 h2 h3
    simp [Group.parse, ParseBuffer.step_cursor, Group.tryDelims, h1, h2, h3,
      Cursor.error]

/-- Witness for C5: a brace-delimited group at the head parses as the
brace interpretation with its original span; a non-group token fails with
"expected group token". -/
theorem group_parse_spec_witness :
    Group.parse (ParseBuffer.new Span.callSite
        [TokenTree.group Delimiter.brace [] (Span.pos 1)] none) =
      (.ok ⟨Delimiter.brace, [], Span.pos 1⟩,
        ParseBuffer.new Span.callSite [] none) ∧
    Group.parse (ParseBuffer.new Span.callSite
        [TokenTree.ident "x" (Span.pos 2)] none) =
      (.error ⟨Span.pos 2, some "expected group token"⟩,
        ParseBuffer.new Span.callSite [TokenTree.ident "x" (Span.pos 2)] none) := by
  constructor
  · exact (group_parse_spec _).1 Delimiter.brace [] (Span.pos 1) [] rfl
  · exact (group_parse_spec _).2 rfl rfl rfl

/-- C6: the `Parse` implementation for `TokenTree` consumes exactly one
token of any kind when at least one remains, returning it with the
cursor just past it, and fails with "expected token tree" when no tokens
remain. -/
theorem tokentree_parse_spec (st : ParseBuffer) :
    (∀ t rest, st.cursor = t :: rest →
      TokenTree.parse st = (.ok t, { st with cursor := rest })) ∧
    (st.cursor = [] →
      TokenTree.parse st =
        (.error ⟨Span.callSite, some "expected token tree"⟩, st)) := by
  constructor
  · intro t rest h
    simp [TokenTree.parse, ParseBuffer.step_cursor, h, Cursor.token_tree]
  · intro h
    simp [TokenTree.parse, ParseBuffer.step_cursor, h, Cursor.token_tree,
      Cursor.error, Cursor.spanOf]

/-- Witness for C6: one token is consumed when present; the empty cursor
fails with "expected token tree". -/
theorem tokentree_parse_spec_witness :
    TokenTree.parse (ParseBuffer.new Span.callSite
        [TokenTree.ident "a" (Span.pos 3)] none) =
      (.ok (TokenTree.ident "a" (Span.pos 3)),
        ParseBuffer.new Span.callSite [] none) ∧
    TokenTree.parse (ParseBuffer.new Span.callSite [] none) =
      (.error ⟨Span.callSite, some "expected token tree"⟩,
        ParseBuffer.new Span.callSite [] none) := by
  constructor
  · exact (tokentree_parse_spec _).1 (TokenTree.ident "a" (Span.pos 3)) [] rfl
  · exact (tokentree_parse_spec _).2 rfl

/-- C7: `Ident::parse_any` succeeds on every identifier-shaped next
token, returning its text unchanged with the cursor advanced past it,
with no reserved-word restriction; on the same keyword tokens the
ordinary identifier rule fails. -/
theorem ident_parse_any_keywords (name : String) (sp : Span) (rest : Cursor) :
    Ident.parse_any (TokenTree.ident name sp :: rest) = .ok ((name, sp), rest) ∧
    (name ∈ rustKeywords →
      Ident.parse_plain (TokenTree.ident name sp :: rest) =
        Except.error ⟨Span.callSite, none⟩) := by
  constructor
  · rfl
  · intro h
    simp [Ident.parse_plain, Cursor.ident, h, parse_error]

/-- Witness for C7: the reserved word `impl` is rejected by the ordinary
identifier rule but accepted by `parse_any` with its text unchanged. -/
theorem ident_parse_any_keywords_witness :
    Ident.parse_any [TokenTree.ident "impl" (Span.pos 4)] =
      .ok (("impl", Span.pos 4), []) ∧
    Ident.parse_plain [TokenTree.ident "impl" (Span.pos 4)] =
      Except.error ⟨Span.callSite, none⟩ := by
  have h := ident_parse_any_keywords "impl" (Span.pos 4) []
  exact ⟨h.1, h.2 (by decide)⟩

/-- C8: failure never commits an advanced cursor: any rule expressed
through `step_cursor` that fails leaves the caller's state — cursor
included — exactly as it was, and each atomic parser of this module
(`TokenTree`, `Group`, `Punct`, `Literal`, `Ident::parse_any2`) does
so. -/
theorem rollback_on_failure (α : Type) (st : ParseBuffer) :
    (∀ (f : Cursor → Except Error (α × Cursor)) e st',
      ParseBuffer.step_cursor st f = (.error e, st') → st' = st) ∧
    (∀ e st', TokenTree.parse st = (.error e, st') → st' = st) ∧
    (∀ e st', Group.parse st = (.error e, st') → st' = st) ∧
    (∀ e st', Punct.parse st = (.error e, st') → st' = st) ∧
    (∀ e st', Literal.parse st = (.error e, st') → st' = st) ∧
    (∀ e st', Ident.parse_any2 st = (.error e, st') → st' = st) := by
  refine ⟨?_, ?_, ?_, ?_, ?_, ?_⟩
  · intro f e st' h
    exact step_cursor_err_state α st f e st' h
  · intro e st' h
    exact step_cursor_err_state TokenTree st _ e st' h
  · intro e st' h
    exact step_cursor_err_state Group st _ e st' h
  · intro e st' h
    exact step_cursor_err_state (Char × Span) st _ e st' h
  · intro e st' h
    exact step_cursor_err_state (String × Span) st _ e st' h
  · intro e st' h
    exact step_cursor_err_state (String × Span) st _ e st' h

/-- Witness for C8: a failing run of the token-tree parser returns the
state it was given, unchanged. -/
theorem rollback_on_failure_witness :
    TokenTree.parse (ParseBuffer.new (Span.pos 9) [] none) =
      (.error ⟨Span.callSite, some "expected token tree"⟩,
        ParseBuffer.new (Span.pos 9) [] none) ∧
    (ParseBuffer.new (Span.pos 9) [] none : ParseBuffer) =
      ParseBuffer.new (Span.pos 9) [] none := by
  refine ⟨rfl, ?_⟩
  exact (rollback_on_failure TokenTree (ParseBuffer.new (Span.pos 9) [] none)).2.1
    ⟨Span.callSite, some "expected token tree"⟩
    (ParseBuffer.new (Span.pos 9) [] none) rfl

/-- C10: on a next token that is not identifier-shaped,
`Ident::parse_any` fails with the generic parse error — no descriptive
message, anchored at the default call-site position — while
`Ident::parse_any2` fails with the specific message "expected ident"
anchored at the cursor's position. -/
theorem ident_ext_error_contrast (st : ParseBuffer)
    (h : st.cursor.ident = none) :
    Ident.parse_any st.cursor = Except.error ⟨Span.callSite, none⟩ ∧
    Ident.parse_any2 st =
      (.error ⟨st.cursor.spanOf, some "expected ident"⟩, st) := by
  constructor
  · simp [Ident.parse_any, h, parse_error]
  · simp [Ident.parse_any2, ParseBuffer.step_cursor, h, Cursor.error]

/-- Witness for C10: on a punctuation token, `parse_any` fails with the
message-less call-site error and `parse_any2` with "expected ident" at
the token's span. -/
theorem ident_ext_error_contrast_witness :
    Ident.parse_any [TokenTree.punct '+' (Span.pos 0)] =
      Except.error ⟨Span.callSite, none⟩ ∧
    Ident.parse_any2
        (ParseBuffer.new Span.callSite [TokenTree.punct '+' (Span.pos 0)] none) =
      (.error ⟨Span.pos 0, some "expected ident"⟩,
        ParseBuffer.new Span.callSite [TokenTree.punct '+' (Span.pos 0)] none) :=
  ident_ext_error_contrast
    (ParseBuffer.new Span.callSite [TokenTree.punct '+' (Span.pos 0)] none) rfl

end Syn
